import Mathlib

/-!
# Verification of the SNKRS checkout bot (src/Nike_snkrs_bot.py)

Shallow embedding of the pure/decidable core of the bot: selector-chain
resolution, size-selection text matching, the retry controller, the
release-time wait loop, the 2FA poll loop, the shipping/payment form
logic, and the run-lifecycle (try/except/finally) structure of
`NikeSNKRSBot.start`.

Conventions of the embedding:
* Python exceptions become `Except`/explicit outcome types.
* The browser page is a read-only oracle: a function from CSS selector
  strings to the element (if any) that `find_element` would return.
* Real time is modelled in integer milliseconds; sleeps advance the
  clock by exactly their duration (poll bodies take zero time).
* Python string primitives (`in`, `strip`, `endswith`, `lower`) are
  implemented over character lists so that all definitions evaluate by
  kernel reduction.
-/

namespace NikeBot

/-- Python substring test `needle in hay` on character lists:
`needle` occurs contiguously in `hay`. -/
def listIsInfixOf (needle : List Char) : List Char → Bool
  | [] => needle.isEmpty
  | h :: t => needle.isPrefixOf (h :: t) || listIsInfixOf needle t

/-- Python `needle in hay` on strings (contiguous substring test). -/
def containsSubstr (hay needle : String) : Bool :=
  listIsInfixOf needle.data hay.data

/-- Python `s.strip()`: remove leading and trailing whitespace. -/
def pyStrip (s : String) : String :=
  ⟨((s.data.dropWhile Char.isWhitespace).reverse.dropWhile Char.isWhitespace).reverse⟩

/-- Python `s.endswith(suffix)`. -/
def pyEndsWith (s suffix : String) : Bool :=
  suffix.data.isSuffixOf s.data

/-- Python `s.lower()` (ASCII case folding suffices for the URLs used). -/
def pyLower (s : String) : String :=
  ⟨s.data.map Char.toLower⟩

/-- Python `s.split(", ")` on character lists: scan left to right,
emit the accumulated (reversed) chunk at each occurrence of the
two-character separator.  The source only ever splits on `", "`. -/
def pySplitCSAux : List Char → List Char → List (List Char)
  | [], acc => [acc.reverse]
  | [x], acc => [(x :: acc).reverse]
  | x :: y :: t, acc =>
    if x = ',' && y = ' ' then acc.reverse :: pySplitCSAux t []
    else pySplitCSAux (y :: t) (x :: acc)

/-- Python `group.split(", ")` as `fill_shipping` and `fill_payment`
use it on their selector-group strings. -/
def pySplitCommaSpace (s : String) : List String :=
  (pySplitCSAux s.data []).map (fun l => ⟨l⟩)

/-! ## Size selection (`NikeSNKRSBot.select_size`, strategy B)

Strategy B of `select_size` (the text-matching fallback, lines
978-1003 of the source) collects all size-like buttons and clicks the
first one whose stripped visible text equals the target, or ends with
a space followed by the target, or whose aria-label contains the
target; if none matches it raises `NoSuchElementException` listing the
observed non-empty button texts. -/

/-- A candidate size button as strategy B of `select_size` sees it:
its visible text (`btn.text`) and its accessible label
(`btn.get_attribute("aria-label") or ""`). -/
structure SizeButton where
  text : String
  aria : String
  deriving DecidableEq, Repr

/-- The acceptance test of strategy B of `select_size`:
`txt == target or txt.endswith(f" {target}") or target in aria`,
where `txt = btn.text.strip()`. -/
def sizeMatches (target : String) (b : SizeButton) : Bool :=
  pyStrip b.text == target
    || pyEndsWith (pyStrip b.text) (" " ++ target)
    || containsSubstr b.aria target

/-- The `for btn in buttons` loop of strategy B: click (return) the
first button that passes `sizeMatches`. -/
def firstSizeMatch (target : String) : List SizeButton → Option SizeButton
  | [] => none
  | b :: rest => if sizeMatches target b then some b else firstSizeMatch target rest

/-- Strategy B of `select_size`, from the candidate buttons the page
offers: select the first matching button, else raise
`NoSuchElementException` listing the available (non-empty) texts. -/
def select_size_fallback (shoe_size : String) (buttons : List SizeButton) :
    Except (List String) SizeButton :=
  let target := pyStrip shoe_size
  match firstSizeMatch target buttons with
  | some b => .ok b
  | none => .error ((buttons.map (fun b => pyStrip b.text)).filter (fun t => t ≠ ""))

/-! ## Retry controller (`NikeSNKRSBot._retry`)

`_retry` runs `for attempt in range(1, retry_limit + 1)`, returning the
first successful call; on failure it screenshots and, if
`attempt == retry_limit`, re-raises, else sleeps and retries.  If
`retry_limit <= 0` the loop body never runs and the method returns
`None`.  A stage function is modelled as `f : Nat → Except ε α` giving
the outcome of the call made on attempt number `i` (1-based). -/

/-- What a `_retry` invocation does overall: return a value, re-raise
the error of the last attempt, or fall through the empty loop
(Python `return None`). -/
inductive RetryOutcome (ε α : Type) where
  | ok : α → RetryOutcome ε α
  | raised : ε → RetryOutcome ε α
  | fellThrough : RetryOutcome ε α
  deriving DecidableEq, Repr

/-- The attempt loop of `_retry`: `start` is the current attempt
number, the second argument the number of attempts still allowed.
Returns the outcome together with how many times the stage function
was invoked. -/
def retryCore (f : Nat → Except ε α) (start : Nat) :
    Nat → RetryOutcome ε α × Nat
  | 0 => (.fellThrough, 0)
  | r + 1 =>
    match f start with
    | .ok a => (.ok a, 1)
    | .error e =>
      if r = 0 then (.raised e, 1)
      else
        let p := retryCore f (start + 1) r
        (p.1, p.2 + 1)

/-- `NikeSNKRSBot._retry(func, step_name)` with
`config.retry_limit = retry_limit` (an `int`, possibly non-positive:
`range(1, n + 1)` is empty for `n ≤ 0`, which `Int.toNat` mirrors). -/
def _retry (f : Nat → Except ε α) (retry_limit : Int) :
    RetryOutcome ε α × Nat :=
  retryCore f 1 retry_limit.toNat

/-! ## Product-page navigation (`NikeSNKRSBot.navigate_to_shoe`)

Unlike the other stages, `navigate_to_shoe` manages its own loop
`for attempt in range(1, retry_limit + 1)` (lines 924-946) and, after
the loop, unconditionally raises `RuntimeError`.  `pageLoaded i`
abstracts whether the `WebDriverWait` on attempt `i` found one of the
size indicators before timing out. -/

/-- The attempt loop of `navigate_to_shoe`: true iff some allowed
attempt succeeds. -/
def navLoop (pageLoaded : Nat → Bool) (attempt : Nat) : Nat → Bool
  | 0 => false
  | r + 1 => if pageLoaded attempt then true else navLoop pageLoaded (attempt + 1) r

/-- `NikeSNKRSBot.navigate_to_shoe`: return normally if an attempt
succeeds within the budget, else raise `RuntimeError`. -/
def navigate_to_shoe (pageLoaded : Nat → Bool) (retry_limit : Int) :
    Except String Unit :=
  if navLoop pageLoaded 1 retry_limit.toNat then .ok ()
  else .error "Could not load shoe page with available sizes."

/-! ## Release-time wait (`NikeSNKRSBot.wait_for_drop`)

Time is in integer milliseconds.  The source works in float seconds;
all thresholds (120 s, 5 s) and sleeps (60 s, `remaining - 10 s`, 1 s,
0.05 s) are exactly representable in milliseconds. -/

/-- The sleep (ms) one loop iteration of `wait_for_drop` performs when
`remaining` ms are left (`remaining > 0`):
`min(remaining - 10, 60)` s above 120 s, 1 s above 5 s, else 0.05 s. -/
def sleepAmount (remaining : Nat) : Nat :=
  if remaining > 120000 then min (remaining - 10000) 60000
  else if remaining > 5000 then 1000
  else 50

/-- The `while True` loop of `wait_for_drop`, recording the sequence
of sleeps it performs; the clock advances by exactly each sleep.
`remaining` is `(target - datetime.now()).total_seconds()` in ms; the
loop breaks once it is `≤ 0`. -/
def dropSleeps (remaining : Nat) : List Nat :=
  if h : remaining = 0 then []
  else sleepAmount remaining :: dropSleeps (remaining - sleepAmount remaining)
termination_by remaining
decreasing_by
  have hpos : 0 < sleepAmount remaining := by
    unfold sleepAmount
    split
    · exact lt_min (by omega) (by norm_num)
    · split <;> norm_num
  omega

/-- `NikeSNKRSBot.wait_for_drop`: no drop time or a drop time not in
the future returns immediately (no sleeps); otherwise the loop runs on
the remaining duration.  `drop_time` and `now` are clock readings in
ms. -/
def wait_for_drop (drop_time : Option Int) (now : Int) : List Nat :=
  match drop_time with
  | none => []
  | some target => if now ≥ target then [] else dropSleeps (target - now).toNat

/-! ## Login-page detection and the 2FA poll loop
(`NikeSNKRSBot._browser_login`, step 4, and `_is_on_login_page`) -/

/-- `NikeSNKRSBot.LOGIN_PAGE_INDICATORS`. -/
def LOGIN_PAGE_INDICATORS : List String :=
  ["accounts.nike.com", "/login", "/signin", "/lookup", "/auth/login"]

/-- `NikeSNKRSBot._is_on_login_page`: some indicator is a substring of
the lowercased current URL. -/
def _is_on_login_page (url : String) : Bool :=
  LOGIN_PAGE_INDICATORS.any (fun ind => containsSubstr (pyLower url) ind)

/-- The 2FA wait loop of `_browser_login` (lines 806-822): polls every
2 s while `elapsed < max_wait` with `max_wait = 300` s.  `urls k` is
the browser location observed at poll `k` (elapsed `2 * k` s); the
loop condition `2 * k < 300` is carried as the fuel `150 - k` so the
function is structurally recursive.  Returns `.ok t` when the poll at
elapsed `t` s sees a non-login page, `.error t` when the ceiling makes
the loop exit at elapsed `t` s and `RuntimeError` is raised. -/
def twoFAPollAux (urls : Nat → String) (k : Nat) : Nat → Except Nat Nat
  | 0 => .error (2 * k)
  | fuel + 1 =>
    if _is_on_login_page (urls k) then twoFAPollAux urls (k + 1) fuel
    else .ok (2 * k)

/-- The full 2FA wait loop: polls start at elapsed 0 and the loop
condition `time.time() - start_time < 300` allows exactly the polls
with `2 * k < 300`, i.e. `k < 150`. -/
def twoFAPoll (urls : Nat → String) : Except Nat Nat :=
  twoFAPollAux urls 0 150

/-! ## The page oracle and selector resolution -/

/-- What `driver.find_element` returns: an element handle with its
visibility (`is_displayed`) and, for checkboxes, selection state. -/
structure Elem where
  eid : Nat
  displayed : Bool
  deriving DecidableEq, Repr

/-- A fixed page state: `query sel` is the element `find_element`
yields for CSS selector `sel` (`none` = `NoSuchElementException`). -/
structure DOM where
  query : String → Option Elem

/-- Whether a selector has a present-and-visible match on the page. -/
def visMatch (dom : DOM) (sel : String) : Bool :=
  match dom.query sel with
  | some el => el.displayed
  | none => false

/-- `NikeSNKRSBot._find_first_element`: first selector whose element
is present and displayed wins; absent or hidden selectors are
skipped; `None` after the list is exhausted. -/
def _find_first_element (dom : DOM) : List String → Option Elem
  | [] => none
  | sel :: rest =>
    match dom.query sel with
    | some el => if el.displayed then some el else _find_first_element dom rest
    | none => _find_first_element dom rest

/-- `ElementHelper.element_exists`: presence only, visibility not
checked. -/
def element_exists (dom : DOM) (sel : String) : Bool :=
  (dom.query sel).isSome

/-! ## Shipping stage (`NikeSNKRSBot.fill_shipping` and
`NikeSNKRSBot._step_already_complete`) -/

/-- The profile fields the checkout stages read
(`UserProfile` in the source, fulfillment subset). -/
structure UserProfile where
  first_name : String := ""
  last_name : String := ""
  address_line1 : String := ""
  address_line2 : String := ""
  city : String := ""
  state : String := ""
  zip_code : String := ""
  phone : String := ""
  card_number : String := ""
  card_exp_month : String := ""
  card_exp_year : String := ""
  card_cvv : String := ""

/-- The `indicators` dict of `_step_already_complete`. -/
def stepIndicators (step_name : String) : List String :=
  if step_name = "shipping" then
    ["[data-qa=\"payment\"]", "iframe[title*=\"card\"]"]
  else if step_name = "payment" then
    ["[data-qa=\"place-order\"]", "button[aria-label*=\"Place Order\"]"]
  else []

/-- `NikeSNKRSBot._step_already_complete`: true iff one of the step
indicator selectors exists on the page. -/
def _step_already_complete (dom : DOM) (step_name : String) : Bool :=
  (stepIndicators step_name).any (fun sel => element_exists dom sel)

/-- The `field_map` of `fill_shipping`: comma-joined selector groups
(exactly the source strings) paired with the profile values. -/
def shippingFieldMap (p : UserProfile) : List (String × String) :=
  [("input[id*=\"firstName\"], input[name*=\"firstName\"]", p.first_name),
   ("input[id*=\"lastName\"], input[name*=\"lastName\"]", p.last_name),
   ("input[id*=\"address1\"], input[name*=\"address1\"]", p.address_line1),
   ("input[id*=\"address2\"], input[name*=\"address2\"]", p.address_line2),
   ("input[id*=\"city\"], input[name*=\"city\"]", p.city),
   ("input[id*=\"state\"], input[name*=\"state\"], select[id*=\"state\"]", p.state),
   ("input[id*=\"postalCode\"], input[name*=\"postalCode\"], input[id*=\"zip\"]", p.zip_code),
   ("input[id*=\"phone\"], input[name*=\"phone\"]", p.phone)]

/-- The inner selector loop of `fill_shipping`: type `value` into the
first present-and-displayed input of the group (`break`); a present
but hidden element does not `break` (the source only breaks inside the
`is_displayed` branch).  Returns the field writes performed. -/
def fillFirstVisible (dom : DOM) (value : String) :
    List String → List (String × String)
  | [] => []
  | sel :: rest =>
    match dom.query sel with
    | some el =>
      if el.displayed then [(sel, value)] else fillFirstVisible dom value rest
    | none => fillFirstVisible dom value rest

/-- The field loop of `fill_shipping`: skip empty values, otherwise
split the selector group on `", "` and fill the first visible match. -/
def fieldWrites (dom : DOM) : List (String × String) → List (String × String)
  | [] => []
  | (group, value) :: rest =>
    (if value = "" then [] else fillFirstVisible dom value (pySplitCommaSpace group))
      ++ fieldWrites dom rest

/-- `NikeSNKRSBot.fill_shipping` (one attempt body, `_do_shipping`):
returns the list of field writes performed.  The pre-filled
short-circuit returns before touching any field. -/
def fill_shipping (dom : DOM) (p : UserProfile) : List (String × String) :=
  if _step_already_complete dom "shipping" then []
  else fieldWrites dom (shippingFieldMap p)

/-! ## Payment stage frame handling (`NikeSNKRSBot.fill_payment`,
`ElementHelper.switch_to_iframe`, `ElementHelper.switch_to_default`)

The driver context is either the top-level document or a frame.  Per
field, `fill_payment` loops over candidate iframe selectors; entering
a frame and filling, finding no input inside, and a timeout entering
the frame all funnel through `switch_to_default`. -/

/-- The driver frame context. -/
inductive Ctx where
  | top : Ctx
  | inFrame : String → Ctx
  deriving DecidableEq, Repr

/-- The frame side of the page: which candidate iframes exist
(`switch_to_iframe` succeeds within its timeout) and which input
selectors `find_element` resolves inside a given frame. -/
structure FramePage where
  frame : String → Bool
  inputInFrame : String → String → Bool

/-- `ElementHelper.switch_to_iframe`: on success the driver context
becomes the frame; the `TimeoutException` leaves it unchanged. -/
def switch_to_iframe (pg : FramePage) (sel : String) (ctx : Ctx) :
    Except Ctx Ctx :=
  if pg.frame sel then .ok (.inFrame sel) else .error ctx

/-- `ElementHelper.switch_to_default`: back to the top document. -/
def switch_to_default (_ctx : Ctx) : Ctx := .top

/-- The inner input-selector loop inside an entered frame: fill the
first input selector that resolves (`break`), recording the write as
`(frame selector, input selector, value)`. -/
def frameInputFill (pg : FramePage) (frameSel value : String) :
    List String → List (String × String × String) × Bool
  | [] => ([], false)
  | s :: rest =>
    if pg.inputInFrame frameSel s then ([(frameSel, s, value)], true)
    else frameInputFill pg frameSel value rest

/-- The iframe-selector loop of `fill_payment` for one field: `try`
to enter each candidate frame; on entry run the input loop and
`switch_to_default`; on `TimeoutException` the handler also runs
`switch_to_default`.  Stops once `filled` (the source `break`s at the
top of the next iteration, which is equivalent). -/
def frameGroupFill (pg : FramePage) (value : String) (inpSels : List String) :
    List String → Ctx → Ctx × List (String × String × String) × Bool
  | [], ctx => (ctx, [], false)
  | fSel :: rest, ctx =>
    match switch_to_iframe pg fSel ctx with
    | .ok ctx1 =>
      let r := frameInputFill pg fSel value inpSels
      let ctx2 := switch_to_default ctx1
      if r.2 then (ctx2, r.1, true)
      else frameGroupFill pg value inpSels rest ctx2
    | .error ctxe =>
      frameGroupFill pg value inpSels rest (switch_to_default ctxe)

/-- The non-iframe fallback of `fill_payment`: fill the first
present-and-displayed top-level input of the group. -/
def topLevelFill (dom : DOM) (value : String) :
    List String → List (String × String)
  | [] => []
  | s :: rest =>
    match dom.query s with
    | some el => if el.displayed then [(s, value)] else topLevelFill dom value rest
    | none => topLevelFill dom value rest

/-- One entry of the `iframe_card_map` loop of `fill_payment`: skip
empty values; else run the frame group and, when nothing was filled,
the top-level fallback.  Returns the driver context afterwards, the
frame-scoped writes, and the top-level fallback writes. -/
def paymentFieldFill (pg : FramePage) (dom : DOM)
    (frameGroup inputGroup value : String) (ctx : Ctx) :
    Ctx × List (String × String × String) × List (String × String) :=
  if value = "" then (ctx, [], [])
  else
    let r := frameGroupFill pg value (pySplitCommaSpace inputGroup)
      (pySplitCommaSpace frameGroup) ctx
    (r.1, r.2.1,
      if r.2.2 then [] else topLevelFill dom value (pySplitCommaSpace inputGroup))

/-- Python `s[-2:]` (used for the expiry year). -/
def pyLastTwo (s : String) : String :=
  ⟨(s.data.reverse.take 2).reverse⟩

/-- The `iframe_card_map` of `fill_payment`: the literal frame/input
selector-group strings paired with the card values;
`exp_value = f"{month}/{year[-2:]}"`. -/
def iframeCardMap (p : UserProfile) : List (String × String × String) :=
  [("iframe[title*=\"card number\"], iframe[id*=\"cardNumber\"]",
    "input[id*=\"cardNumber\"], input[name*=\"cardNumber\"], input[name*=\"credit-card-number\"], input",
    p.card_number),
   ("iframe[title*=\"expiration\"], iframe[id*=\"expirationDate\"]",
    "input[id*=\"expiration\"], input[name*=\"expirationDate\"], input",
    p.card_exp_month ++ "/" ++ pyLastTwo p.card_exp_year),
   ("iframe[title*=\"CVV\"], iframe[title*=\"cvv\"], iframe[id*=\"cvv\"]",
    "input[id*=\"cvv\"], input[name*=\"cvv\"], input",
    p.card_cvv)]

/-- The card-field section of `fill_payment` (one attempt body): fold
the three `iframe_card_map` entries through the driver context. -/
def fillPaymentCards (pg : FramePage) (dom : DOM) (p : UserProfile)
    (ctx : Ctx) : Ctx × List (String × String × String) :=
  (iframeCardMap p).foldl
    (fun acc entry =>
      let r := paymentFieldFill pg dom entry.1 entry.2.1 entry.2.2 acc.1
      (r.1, acc.2 ++ r.2.1))
    (ctx, [])

/-! ## API login (`NikeAPILogin.login`)

The whole method body is one `try` whose `except Exception` returns
`False`.  Three effectful phases can raise inside it: building the
headers (`execute_script`/`get_cookies`), the `requests.post` call,
and — after a 200 — `_inject_session` (whose final
`self.driver.refresh()` is not individually guarded).  Each phase is
an `Except` input; the function totalises to `Bool`, which is the
"never propagates an exception" shape of the source. -/

/-- An HTTP response as `login` inspects it. -/
structure HttpResponse where
  status : Nat
  deriving DecidableEq, Repr

/-- `NikeAPILogin.login`: `True` only on a 200 response whose session
injection completes; `False` on a raised header phase, any transport
error, any non-200 status, or a raise during injection. -/
def api_login (hdr : Except Unit Unit) (transport : Except Unit HttpResponse)
    (inject : Except Unit Unit) : Bool :=
  match hdr with
  | .error _ => false
  | .ok _ =>
    match transport with
    | .error _ => false
    | .ok resp =>
      if resp.status = 200 then
        match inject with
        | .ok _ => true
        | .error _ => false
      else false

/-! ## Run lifecycle (`NikeSNKRSBot.start`)

`start` wraps the nine stages in
`try ... except KeyboardInterrupt ... except Exception ... finally`,
where the `finally` block screenshots, prompts, and quits the driver.
Both handlers only log; `start` then returns normally, so `main` and
the process finish with exit status 0 whatever happened. -/

/-- How the `try` body of `start` ends: all stages succeed, the user
interrupts, or a stage re-raises after exhausting its retries. -/
inductive BodyOutcome (ε : Type) where
  | success : BodyOutcome ε
  | interrupted : BodyOutcome ε
  | failed : ε → BodyOutcome ε
  deriving DecidableEq, Repr

/-- Observable effects of one `start` run. -/
structure RunReport where
  loggedSuccess : Bool
  loggedInterrupt : Bool
  loggedFatal : Bool
  finalScreenshot : Bool
  prompted : Bool
  driverQuit : Bool
  exitCode : Nat
  deriving DecidableEq, Repr

/-- `NikeSNKRSBot.start` after `_validate_config` and driver creation
succeed: the `finally` block (final screenshot, prompt, `quit`) runs
on every outcome, the handlers swallow the error, and the process
exits 0. -/
def start (outcome : BodyOutcome ε) : RunReport :=
  match outcome with
  | .success =>
    { loggedSuccess := true, loggedInterrupt := false, loggedFatal := false
      finalScreenshot := true, prompted := true, driverQuit := true, exitCode := 0 }
  | .interrupted =>
    { loggedSuccess := false, loggedInterrupt := true, loggedFatal := false
      finalScreenshot := true, prompted := true, driverQuit := true, exitCode := 0 }
  | .failed _ =>
    { loggedSuccess := false, loggedInterrupt := false, loggedFatal := true
      finalScreenshot := true, prompted := true, driverQuit := true, exitCode := 0 }

/-! ## Test fixtures used by the witnesses -/

/-- A stage function failing on attempts 1 and 2 and succeeding on 3. -/
def c2f : Nat → Except Nat String :=
  fun i => if i < 3 then .error i else .ok "done"

/-- A stage function failing on every attempt, with attempt `i`
raising error `i`. -/
def c2g : Nat → Except Nat String := fun i => .error i

/-- A product page whose size indicators are present on every load. -/
def alwaysLoaded : Nat → Bool := fun _ => true

/-- A stage function that always raises. -/
def c9f : Nat → Except String Unit := fun _ => .error "boom"

/-- A browser location trace: on the login page for polls 0 and 1,
then on the cart page. -/
def c5urls : Nat → String :=
  fun k => if k < 2 then "https://accounts.nike.com/lookup"
           else "https://www.nike.com/cart"

/-- A checkout page whose payment-stage marker is present. -/
def c6dom : DOM :=
  ⟨fun sel => if sel = "[data-qa=\"payment\"]" then some ⟨7, true⟩ else none⟩

/-- A page with one hidden and one visible element. -/
def c8dom : DOM :=
  ⟨fun sel =>
    if sel = "button.presentHidden" then some ⟨1, false⟩
    else if sel = "button.presentVisible" then some ⟨2, true⟩
    else none⟩

end NikeBot

namespace NikeBot

/-! ## Theorems for the claims -/

/-- Soundness of the strategy-B loop: a returned button passed the
acceptance test. -/
theorem firstSizeMatch_sound (t : String) :
    ∀ (bs : List SizeButton) (b : SizeButton),
      firstSizeMatch t bs = some b → sizeMatches t b = true := by
  intro bs
  induction bs with
  | nil => intro b h; simp [firstSizeMatch] at h
  | cons x xs ih =>
    intro b h
    rw [firstSizeMatch] at h
    by_cases hx : sizeMatches t x
    · rw [if_pos hx] at h; cases h; exact hx
    · rw [if_neg hx] at h; exact ih b h

/-- C1: in the text-matching fallback of `select_size`, a button is
accepted only if its stripped visible text equals the target, ends
with a space followed by the target, or its aria-label contains the
target; with variants `["8","9","10","11","10.5"]` and target `"10"`
the exactly-labelled `"10"` button is selected (never the `"10.5"`
one), and a `"10.5"` button does not match target `"10"` by itself. -/
theorem C1_select_size_text_matching :
    (∀ (shoe_size : String) (buttons : List SizeButton) (b : SizeButton),
        select_size_fallback shoe_size buttons = .ok b →
          pyStrip b.text = pyStrip shoe_size ∨
          pyEndsWith (pyStrip b.text) (" " ++ pyStrip shoe_size) = true ∨
          containsSubstr b.aria (pyStrip shoe_size) = true) ∧
    select_size_fallback "10"
        [⟨"8", ""⟩, ⟨"9", ""⟩, ⟨"10", ""⟩, ⟨"11", ""⟩, ⟨"10.5", ""⟩] =
      .ok ⟨"10", ""⟩ ∧
    sizeMatches "10" ⟨"10.5", ""⟩ = false := by
  refine ⟨?_, rfl, by decide⟩
  intro shoe_size buttons b h
  simp only [select_size_fallback] at h
  cases hm : firstSizeMatch (pyStrip shoe_size) buttons with
  | none => rw [hm] at h; simp at h
  | some x =>
    rw [hm] at h
    simp only [Except.ok.injEq] at h
    subst h
    have hs := firstSizeMatch_sound (pyStrip shoe_size) buttons x hm
    simp only [sizeMatches, Bool.or_eq_true, beq_iff_eq] at hs
    tauto

/-- C1 witness: the acceptance theorem applied to a concrete
selection. -/
theorem C1_witness :
    select_size_fallback "10" [⟨"10", ""⟩] = .ok ⟨"10", ""⟩ ∧
    (pyStrip ("10" : String) = pyStrip "10" ∨
      pyEndsWith (pyStrip ("10" : String)) (" " ++ pyStrip "10") = true ∨
      containsSubstr "" (pyStrip "10") = true) :=
  ⟨rfl, C1_select_size_text_matching.1 "10" [⟨"10", ""⟩] ⟨"10", ""⟩ rfl⟩

/-- If every call fails, the attempt loop makes all its allowed calls
and raises the error of the last one. -/
theorem retryCore_allFail {ε α : Type} (f : Nat → Except ε α) (errs : Nat → ε)
    (hf : ∀ i, f i = .error (errs i)) :
    ∀ (r start : Nat),
      retryCore f start (r + 1) = (.raised (errs (start + r)), r + 1) := by
  intro r
  induction r with
  | zero =>
    intro start
    rw [retryCore, hf start]
    simp
  | succ r ih =>
    intro start
    rw [retryCore, hf start]
    simp only [Nat.succ_ne_zero, if_false]
    rw [ih (start + 1)]
    have : start + 1 + r = start + (r + 1) := by omega
    rw [this]

/-- If the call at offset `d` succeeds and all earlier calls fail, the
attempt loop stops there having made `d + 1` calls. -/
theorem retryCore_firstSuccess {ε α : Type} (f : Nat → Except ε α) :
    ∀ (d start r : Nat) (a : α), d < r → f (start + d) = .ok a →
      (∀ j, j < d → ∃ e, f (start + j) = .error e) →
      retryCore f start r = (.ok a, d + 1) := by
  intro d
  induction d with
  | zero =>
    intro start r a hr hok _
    obtain ⟨r', rfl⟩ : ∃ r', r = r' + 1 := ⟨r - 1, by omega⟩
    rw [Nat.add_zero] at hok
    rw [retryCore, hok]
  | succ d ih =>
    intro start r a hr hok hfail
    obtain ⟨r', rfl⟩ : ∃ r', r = r' + 1 := ⟨r - 1, by omega⟩
    obtain ⟨e, he⟩ := hfail 0 (Nat.succ_pos d)
    rw [Nat.add_zero] at he
    have hr' : r' ≠ 0 := by omega
    have hstep : retryCore f start (r' + 1) =
        ((retryCore f (start + 1) r').1, (retryCore f (start + 1) r').2 + 1) := by
      rw [retryCore, he]
      simp [hr']
    rw [hstep]
    have hok' : f (start + 1 + d) = .ok a := by
      rw [show start + 1 + d = start + (d + 1) by omega]; exact hok
    have hfail' : ∀ j, j < d → ∃ e, f (start + 1 + j) = .error e := by
      intro j hj
      have := hfail (j + 1) (by omega)
      rwa [show start + (j + 1) = start + 1 + j by omega] at this
    rw [ih (start + 1) r' a (by omega) hok' hfail']

/-- C2: with a positive retry budget, a stage whose every attempt
fails is invoked exactly `retry_limit` times and `_retry` re-raises
the error of the last attempt; a stage that first succeeds on attempt
`k ≤ retry_limit` is invoked exactly `k` times and its value is
returned. -/
theorem C2_retry_invocation_counts {ε α : Type} (f : Nat → Except ε α) (n : Nat) :
    (∀ errs : Nat → ε, (∀ i, f i = .error (errs i)) → 1 ≤ n →
        _retry f (n : Int) = (.raised (errs n), n)) ∧
    (∀ (k : Nat) (a : α), 1 ≤ k → k ≤ n → f k = .ok a →
        (∀ i, 1 ≤ i → i < k → ∃ e, f i = .error e) →
        _retry f (n : Int) = (.ok a, k)) := by
  have ht : ((n : Int)).toNat = n := by omega
  constructor
  · intro errs hf hn
    unfold _retry
    rw [ht]
    obtain ⟨m, rfl⟩ : ∃ m, n = m + 1 := ⟨n - 1, by omega⟩
    rw [retryCore_allFail f errs hf m 1]
    have : 1 + m = m + 1 := by omega
    rw [this]
  · intro k a hk1 hkn hok hfail
    unfold _retry
    rw [ht]
    have hok' : f (1 + (k - 1)) = .ok a := by
      rw [show 1 + (k - 1) = k by omega]; exact hok
    have hfail' : ∀ j, j < k - 1 → ∃ e, f (1 + j) = .error e :=
      fun j hj => hfail (1 + j) (by omega) (by omega)
    rw [retryCore_firstSuccess f (k - 1) 1 n a (by omega) hok' hfail']
    rw [show k - 1 + 1 = k by omega]

/-- C2 witness: an always-failing stage with budget 4 is called 4
times and re-raises error 4; a stage succeeding on attempt 3 with
budget 5 is called 3 times and returns its value. -/
theorem C2_witness :
    _retry c2g (4 : Int) = (.raised 4, 4) ∧
    _retry c2f (5 : Int) = (.ok "done", 3) := by
  constructor
  · exact (C2_retry_invocation_counts c2g 4).1 id (fun i => rfl) (by norm_num)
  · exact (C2_retry_invocation_counts c2f 5).2 3 "done" (by norm_num) (by norm_num)
      rfl (fun i _ h2 => ⟨i, by simp [c2f, h2]⟩)

/-- C9 counterexample: with `retry_limit = 0` the state machine does
not complete all stages without error — `navigate_to_shoe` runs its
own empty attempt loop and then unconditionally raises
`RuntimeError`, even on a page whose sizes are always present. -/
theorem C9_counterexample :
    navigate_to_shoe alwaysLoaded 0 =
      .error "Could not load shoe page with available sizes." := rfl

/-- C9 (amended): with `retry_limit ≤ 0`, `_retry` returns `None`
without invoking the stage function and without raising, so the
`_retry`-wrapped stages all no-op; but the run does not complete all
stages, because `navigate_to_shoe` (which loops on its own) raises
`RuntimeError` after its empty loop. -/
theorem C9_zero_budget {ε α : Type} (f : Nat → Except ε α) (n : Int)
    (hn : n ≤ 0) :
    _retry f n = (.fellThrough, 0) ∧
    ∀ pageLoaded : Nat → Bool,
      navigate_to_shoe pageLoaded n =
        .error "Could not load shoe page with available sizes." := by
  have ht : n.toNat = 0 := by omega
  constructor
  · unfold _retry; rw [ht]; rfl
  · intro pl; unfold navigate_to_shoe; rw [ht]; rfl

/-- C9 witness: budget −2 makes `_retry` fall through with zero calls
while `navigate_to_shoe` raises. -/
theorem C9_witness :
    _retry c9f (-2 : Int) = (.fellThrough, 0) ∧
    navigate_to_shoe alwaysLoaded (-2 : Int) =
      .error "Could not load shoe page with available sizes." :=
  ⟨(C9_zero_budget c9f (-2) (by norm_num)).1,
   (C9_zero_budget c9f (-2) (by norm_num)).2 alwaysLoaded⟩

/-- C3 counterexample: a run whose stage fails fatally still finishes
with exit status 0 — `start` logs the error, runs the `finally`
block, and returns normally, so there is no non-zero exit path. -/
theorem C3_counterexample :
    (start (BodyOutcome.failed "stage retry budget exhausted")).exitCode = 0 :=
  rfl

/-- C3 (amended): the final diagnostic capture and session teardown
run on every outcome (success, cancellation, stage failure); on an
unrecoverable stage failure the run takes the error-logging path and
skips the success message, but the process still exits with status
0 rather than a non-zero code. -/
theorem C3_cleanup_always_exit_zero (o : BodyOutcome String) :
    ((start o).finalScreenshot = true ∧ (start o).driverQuit = true) ∧
    (∀ e, o = .failed e →
      (start o).loggedFatal = true ∧ (start o).loggedSuccess = false ∧
        (start o).exitCode = 0) := by
  cases o <;> simp [start]

/-- C3 witness: the amended theorem at a concrete failed run. -/
theorem C3_witness :
    (start (BodyOutcome.failed "boom")).finalScreenshot = true ∧
    (start (BodyOutcome.failed "boom")).driverQuit = true ∧
    (start (BodyOutcome.failed "boom")).loggedFatal = true ∧
    (start (BodyOutcome.failed "boom")).loggedSuccess = false ∧
    (start (BodyOutcome.failed "boom")).exitCode = 0 :=
  ⟨(C3_cleanup_always_exit_zero (BodyOutcome.failed "boom")).1.1,
   (C3_cleanup_always_exit_zero (BodyOutcome.failed "boom")).1.2,
   ((C3_cleanup_always_exit_zero (BodyOutcome.failed "boom")).2 "boom" rfl).1,
   ((C3_cleanup_always_exit_zero (BodyOutcome.failed "boom")).2 "boom" rfl).2.1,
   ((C3_cleanup_always_exit_zero (BodyOutcome.failed "boom")).2 "boom" rfl).2.2⟩

/-- The loop sleep is positive while time remains. -/
theorem sleepAmount_pos (d : Nat) (hd : 0 < d) : 0 < sleepAmount d := by
  unfold sleepAmount
  split
  · exact lt_min (by omega) (by norm_num)
  · split <;> norm_num

/-- Above one short tick of remaining time, the loop never sleeps
past the target. -/
theorem sleepAmount_lt (d : Nat) (hd : 50 < d) : sleepAmount d < d := by
  unfold sleepAmount
  split
  · exact lt_of_le_of_lt (min_le_right _ _) (by omega)
  · split <;> omega

/-- In the final stretch (≤ 5 s) the loop ticks in 50 ms steps. -/
theorem sleepAmount_small (d : Nat) (hd : d ≤ 5000) : sleepAmount d = 50 := by
  unfold sleepAmount
  rw [if_neg (by omega), if_neg (by omega)]

theorem dropSleeps_zero : dropSleeps 0 = [] := by
  unfold dropSleeps
  simp

theorem dropSleeps_succ (d : Nat) (hd : d ≠ 0) :
    dropSleeps d = sleepAmount d :: dropSleeps (d - sleepAmount d) := by
  conv_lhs => rw [dropSleeps]
  rw [dif_neg hd]

/-- Behaviour of the wait loop on `d > 0` ms of remaining time: it
sleeps at least `d` ms in total, overshoots by at most 49 ms, and
every sleep starts strictly before the target. -/
theorem dropSleeps_spec :
    ∀ d : Nat, 0 < d →
      d ≤ (dropSleeps d).sum ∧ (dropSleeps d).sum ≤ d + 49 ∧
        ∀ k, k < (dropSleeps d).length → ((dropSleeps d).take k).sum < d := by
  intro d
  induction d using Nat.strong_induction_on with
  | _ d ih =>
    intro hd
    rw [dropSleeps_succ d (by omega)]
    have hspos := sleepAmount_pos d hd
    by_cases hds : sleepAmount d < d
    · have hd' : 0 < d - sleepAmount d := by omega
      obtain ⟨ih1, ih2, ih3⟩ := ih (d - sleepAmount d) (by omega) hd'
      refine ⟨?_, ?_, ?_⟩
      · simp only [List.sum_cons]; omega
      · simp only [List.sum_cons]; omega
      · intro k hk
        cases k with
        | zero => simpa using hd
        | succ j =>
          simp only [List.length_cons] at hk
          simp only [List.take_succ_cons, List.sum_cons]
          have := ih3 j (by omega)
          omega
    · have hd50 : d ≤ 50 := by
        by_contra hgt
        exact hds (sleepAmount_lt d (by omega))
      have hs : sleepAmount d = 50 := sleepAmount_small d (by omega)
      have hsub : d - sleepAmount d = 0 := by omega
      rw [hsub, dropSleeps_zero]
      refine ⟨?_, ?_, ?_⟩
      · simp only [List.sum_cons, List.sum_nil, hs]; omega
      · simp only [List.sum_cons, List.sum_nil, hs]; omega
      · intro k hk
        simp only [List.length_cons, List.length_nil] at hk
        cases k with
        | zero => simpa using hd
        | succ j => omega

/-- C4: an absent drop time and a drop time not in the future return
with zero sleeps; for a future drop time the stage sleeps at least the
remaining duration `d` ms, overshoots by at most 49 ms (well under the
1 s short-tick bound), and every individual sleep begins strictly
before the target. -/
theorem C4_wait_for_drop_bounds :
    (∀ now : Int, wait_for_drop none now = []) ∧
    (∀ target now : Int, target ≤ now → wait_for_drop (some target) now = []) ∧
    (∀ target now : Int, now < target →
      (target - now).toNat ≤ (wait_for_drop (some target) now).sum ∧
      (wait_for_drop (some target) now).sum ≤ (target - now).toNat + 49 ∧
      ∀ k, k < (wait_for_drop (some target) now).length →
        ((wait_for_drop (some target) now).take k).sum < (target - now).toNat) := by
  refine ⟨fun now => rfl, ?_, ?_⟩
  · intro target now h
    simp only [wait_for_drop]
    rw [if_pos h]
  · intro target now h
    have hw : wait_for_drop (some target) now = dropSleeps (target - now).toNat := by
      simp only [wait_for_drop]
      rw [if_neg (by omega)]
    rw [hw]
    exact dropSleeps_spec (target - now).toNat (by omega)

/-- C4 witness: the bounds at a drop 150 s away (150000 ms), plus the
immediate returns. -/
theorem C4_witness :
    wait_for_drop none 0 = [] ∧
    wait_for_drop (some 100) 100 = [] ∧
    150000 ≤ (wait_for_drop (some 150000) 0).sum ∧
    (wait_for_drop (some 150000) 0).sum ≤ 150049 := by
  refine ⟨C4_wait_for_drop_bounds.1 0,
          C4_wait_for_drop_bounds.2.1 100 100 le_rfl, ?_, ?_⟩
  · have := (C4_wait_for_drop_bounds.2.2 150000 0 (by norm_num)).1
    simpa using this
  · have := (C4_wait_for_drop_bounds.2.2 150000 0 (by norm_num)).2.1
    simpa using this

/-- If every poll in the window still sees a login page, the 2FA loop
runs to its ceiling and raises there. -/
theorem twoFAPollAux_allLogin (urls : Nat → String) :
    ∀ (fuel k : Nat),
      (∀ j, k ≤ j → j < k + fuel → _is_on_login_page (urls j) = true) →
      twoFAPollAux urls k fuel = .error (2 * (k + fuel)) := by
  intro fuel
  induction fuel with
  | zero => intro k _; simp [twoFAPollAux]
  | succ f ih =>
    intro k hall
    rw [twoFAPollAux]
    rw [hall k le_rfl (by omega)]
    simp only [if_true]
    rw [ih (k + 1) (fun j h1 h2 => hall j (by omega) (by omega))]
    congr 1
    omega

/-- If the first non-login poll is at offset `d` inside the window,
the 2FA loop returns right there. -/
theorem twoFAPollAux_firstExit (urls : Nat → String) :
    ∀ (d fuel k : Nat), d < fuel →
      _is_on_login_page (urls (k + d)) = false →
      (∀ j, j < d → _is_on_login_page (urls (k + j)) = true) →
      twoFAPollAux urls k fuel = .ok (2 * (k + d)) := by
  intro d
  induction d with
  | zero =>
    intro fuel k hf hex _
    obtain ⟨f, rfl⟩ : ∃ f, fuel = f + 1 := ⟨fuel - 1, by omega⟩
    rw [Nat.add_zero] at hex
    rw [twoFAPollAux, hex]
    simp
  | succ d ih =>
    intro fuel k hf hex hall
    obtain ⟨f, rfl⟩ : ∃ f, fuel = f + 1 := ⟨fuel - 1, by omega⟩
    have h0 := hall 0 (Nat.succ_pos d)
    rw [Nat.add_zero] at h0
    rw [twoFAPollAux, h0]
    simp only [if_true]
    rw [ih f (k + 1) (by omega)
        (by rw [show k + 1 + d = k + (d + 1) by omega]; exact hex)
        (fun j hj => by
          have := hall (j + 1) (by omega)
          rwa [show k + (j + 1) = k + 1 + j by omega] at this)]
    congr 1
    omega

/-- C5: once the verification-code input is detected, if the observed
location stops matching every login-page pattern at some poll before
the 300 s ceiling, the loop returns successfully at that poll (before
the ceiling); if every poll in the window matches, it raises exactly
when the ceiling elapses (elapsed 300 s), not before. -/
theorem C5_twofa_poll (urls : Nat → String) :
    ((∀ j, j < 150 → _is_on_login_page (urls j) = true) →
        twoFAPoll urls = .error 300) ∧
    (∀ k, k < 150 → _is_on_login_page (urls k) = false →
        (∀ j, j < k → _is_on_login_page (urls j) = true) →
        twoFAPoll urls = .ok (2 * k) ∧ 2 * k < 300) := by
  constructor
  · intro hall
    have := twoFAPollAux_allLogin urls 150 0 (fun j _ h2 => hall j (by omega))
    simpa [twoFAPoll] using this
  · intro k hk hex hall
    refine ⟨?_, by omega⟩
    have := twoFAPollAux_firstExit urls k 150 0 (by omega)
      (by simpa using hex)
      (fun j hj => by simpa using hall j hj)
    simpa [twoFAPoll] using this

/-- C5 witness: a trace that leaves the login pages at poll 2 makes
the loop return at elapsed 4 s. -/
theorem C5_witness :
    _is_on_login_page (c5urls 2) = false ∧
    twoFAPoll c5urls = .ok 4 ∧ (4 : Nat) < 300 := by
  have h := (C5_twofa_poll c5urls).2 2 (by norm_num) (by decide)
    (fun j hj => by interval_cases j <;> decide)
  exact ⟨by decide, by simpa using h.1, by norm_num⟩

/-- C6: whenever a payment-stage marker element is present, the
shipping stage short-circuits and performs zero field writes (and the
attempt body returns without raising, since this path only runs the
marker check). -/
theorem C6_shipping_idempotent (dom : DOM) (p : UserProfile)
    (h : element_exists dom "[data-qa=\"payment\"]" = true ∨
         element_exists dom "iframe[title*=\"card\"]" = true) :
    fill_shipping dom p = [] := by
  have hc : _step_already_complete dom "shipping" = true := by
    unfold _step_already_complete stepIndicators
    rw [if_pos rfl]
    cases h with
    | inl h => simp [h]
    | inr h => simp [h]
  unfold fill_shipping
  rw [hc]
  simp

/-- C6 witness: a page with the `[data-qa="payment"]` marker takes
the zero-write path. -/
theorem C6_witness :
    element_exists c6dom "[data-qa=\"payment\"]" = true ∧
    fill_shipping c6dom {} = [] :=
  ⟨rfl, C6_shipping_idempotent c6dom {} (Or.inl rfl)⟩

/-- C7: `NikeAPILogin.login` is total with a boolean result (the
catch-all `except` of the source); it returns `true` only on a 200
response, and returns `false` on every non-200 response and on every
transport error. -/
theorem C7_api_login_total (hdr : Except Unit Unit)
    (transport : Except Unit HttpResponse) (inject : Except Unit Unit) :
    (api_login hdr transport inject = true →
      ∃ r, transport = .ok r ∧ r.status = 200) ∧
    (∀ r, transport = .ok r → r.status ≠ 200 →
      api_login hdr transport inject = false) ∧
    (∀ e, transport = .error e → api_login hdr transport inject = false) := by
  refine ⟨?_, ?_, ?_⟩
  · intro h
    cases hdr with
    | error u => simp [api_login] at h
    | ok u =>
      cases transport with
      | error u2 => simp [api_login] at h
      | ok r =>
        refine ⟨r, rfl, ?_⟩
        by_cases hs : r.status = 200
        · exact hs
        · simp [api_login, hs] at h
  · intro r ht hs
    subst ht
    cases hdr with
    | error u => rfl
    | ok u => simp [api_login, hs]
  · intro e ht
    subst ht
    cases hdr with
    | error u => rfl
    | ok u => rfl

/-- C7 witness: a 404 response and a transport error both yield
`false`. -/
theorem C7_witness :
    api_login (.ok ()) (.ok ⟨404⟩) (.ok ()) = false ∧
    api_login (.ok ()) (.error ()) (.ok ()) = false :=
  ⟨(C7_api_login_total (.ok ()) (.ok ⟨404⟩) (.ok ())).2.1 ⟨404⟩ rfl (by norm_num),
   (C7_api_login_total (.ok ()) (.error ()) (.ok ())).2.2 () rfl⟩

/-- Step of the resolver on an absent candidate. -/
theorem ffe_cons_none (dom : DOM) (sel : String) (rest : List String)
    (hq : dom.query sel = none) :
    _find_first_element dom (sel :: rest) = _find_first_element dom rest := by
  rw [_find_first_element, hq]

/-- Step of the resolver on a present but hidden candidate. -/
theorem ffe_cons_hidden (dom : DOM) (sel : String) (rest : List String)
    (el : Elem) (hq : dom.query sel = some el) (hd : el.displayed = false) :
    _find_first_element dom (sel :: rest) = _find_first_element dom rest := by
  rw [_find_first_element, hq]
  simp [hd]

/-- Step of the resolver on a present-and-visible candidate. -/
theorem ffe_cons_vis (dom : DOM) (sel : String) (rest : List String)
    (el : Elem) (hq : dom.query sel = some el) (hd : el.displayed = true) :
    _find_first_element dom (sel :: rest) = some el := by
  rw [_find_first_element, hq]
  simp [hd]

/-- C8: selector-chain resolution is deterministic — on a fixed page,
the earliest listed candidate with a present-and-visible match is the
one returned (whatever matches come later), and `None` is returned
exactly when no candidate in the chain has a present-and-visible
match. -/
theorem C8_find_first_element_order (dom : DOM) :
    (∀ (pre : List String) (s : String) (post : List String),
        (∀ t ∈ pre, visMatch dom t = false) → visMatch dom s = true →
        _find_first_element dom (pre ++ s :: post) = dom.query s) ∧
    (∀ sels : List String,
        _find_first_element dom sels = none ↔
          ∀ t ∈ sels, visMatch dom t = false) := by
  constructor
  · intro pre
    induction pre with
    | nil =>
      intro s post _ hs
      unfold visMatch at hs
      cases hq : dom.query s with
      | none => rw [hq] at hs; cases hs
      | some el =>
        rw [hq] at hs
        rw [List.nil_append, ffe_cons_vis dom s post el hq hs]
    | cons t rest ih =>
      intro s post hpre hs
      have ht : visMatch dom t = false := hpre t (List.mem_cons_self t rest)
      unfold visMatch at ht
      rw [List.cons_append]
      cases hq : dom.query t with
      | none =>
        rw [ffe_cons_none dom t _ hq]
        exact ih s post (fun u hu => hpre u (List.mem_cons_of_mem t hu)) hs
      | some el =>
        rw [hq] at ht
        rw [ffe_cons_hidden dom t _ el hq ht]
        exact ih s post (fun u hu => hpre u (List.mem_cons_of_mem t hu)) hs
  · intro sels
    induction sels with
    | nil => simp [_find_first_element]
    | cons t rest ih =>
      rw [List.forall_mem_cons]
      cases hq : dom.query t with
      | none =>
        rw [ffe_cons_none dom t rest hq]
        have hv : visMatch dom t = false := by unfold visMatch; rw [hq]
        simp [hv, ih]
      | some el =>
        cases hd : el.displayed with
        | false =>
          rw [ffe_cons_hidden dom t rest el hq hd]
          have hv : visMatch dom t = false := by
            unfold visMatch; rw [hq]; exact hd
          simp [hv, ih]
        | true =>
          rw [ffe_cons_vis dom t rest el hq hd]
          have hv : visMatch dom t = true := by
            unfold visMatch; rw [hq]; exact hd
          simp [hv]

/-- C8 witness: on a page where the second candidate is hidden and
the third visible, the resolver returns the third candidate element;
a chain with no match yields `None`. -/
theorem C8_witness :
    _find_first_element c8dom
        ["button.absent", "button.presentHidden", "button.presentVisible",
          "button.extra"] =
      c8dom.query "button.presentVisible" ∧
    _find_first_element c8dom ["button.absent"] = none := by
  constructor
  · exact (C8_find_first_element_order c8dom).1
      ["button.absent", "button.presentHidden"] "button.presentVisible"
      ["button.extra"] (by decide) (by decide)
  · exact ((C8_find_first_element_order c8dom).2 ["button.absent"]).mpr
      (by decide)

/-- Any frame-scoped attempt over a non-empty iframe candidate list
leaves the driver context at the top-level document. -/
theorem frameGroupFill_cons_top (pg : FramePage) (value : String)
    (inpSels : List String) :
    ∀ (sels : List String) (fSel : String) (ctx : Ctx),
      (frameGroupFill pg value inpSels (fSel :: sels) ctx).1 = Ctx.top := by
  intro sels
  induction sels with
  | nil =>
    intro fSel ctx
    rw [frameGroupFill]
    unfold switch_to_iframe
    by_cases hf : pg.frame fSel
    · rw [if_pos hf]
      by_cases hfill : (frameInputFill pg fSel value inpSels).2
      · simp [switch_to_default, hfill]
      · simp [switch_to_default, hfill, frameGroupFill]
    · rw [if_neg hf]
      simp [switch_to_default, frameGroupFill]
  | cons x xs ih =>
    intro fSel ctx
    rw [frameGroupFill]
    unfold switch_to_iframe
    by_cases hf : pg.frame fSel
    · rw [if_pos hf]
      by_cases hfill : (frameInputFill pg fSel value inpSels).2
      · simp [switch_to_default, hfill]
      · simp only [switch_to_default, hfill, if_false, Bool.false_eq_true]
        exact ih x Ctx.top
    · rw [if_neg hf]
      simp only [switch_to_default]
      exact ih x Ctx.top

/-- The driver-context component of one `iframe_card_map` entry. -/
theorem paymentFieldFill_fst (pg : FramePage) (dom : DOM)
    (frameGroup inputGroup value : String) (ctx : Ctx) :
    (paymentFieldFill pg dom frameGroup inputGroup value ctx).1 =
      if value = "" then ctx
      else (frameGroupFill pg value (pySplitCommaSpace inputGroup)
        (pySplitCommaSpace frameGroup) ctx).1 := by
  unfold paymentFieldFill
  by_cases hv : value = ""
  · rw [if_pos hv, if_pos hv]
  · rw [if_neg hv, if_neg hv]

/-- C10: every iframe-scoped fill attempt of `fill_payment` — frame
entered and input filled, no input found inside the frame, or a
timeout entering the frame — ends with the driver back at the
top-level document; consequently the whole card section, whatever the
page shape and starting context, finishes at the top-level document
(the expiry field always runs, its value `month ++ "/" ++ year[-2:]`
being non-empty). -/
theorem C10_frame_context_invariant (pg : FramePage) (dom : DOM)
    (p : UserProfile) (ctx : Ctx) :
    (∀ (value fSel : String) (sels inpSels : List String) (c : Ctx),
        (frameGroupFill pg value inpSels (fSel :: sels) c).1 = Ctx.top) ∧
    (fillPaymentCards pg dom p ctx).1 = Ctx.top := by
  refine ⟨fun value fSel sels inpSels c =>
    frameGroupFill_cons_top pg value inpSels sels fSel c, ?_⟩
  have hv2 : p.card_exp_month ++ "/" ++ pyLastTwo p.card_exp_year ≠ "" := by
    intro heq
    have hlen : (p.card_exp_month ++ "/" ++ pyLastTwo p.card_exp_year).length = 0 := by
      rw [heq]; rfl
    rw [String.length_append, String.length_append] at hlen
    have h1 : ("/" : String).length = 1 := rfl
    omega
  have h2 : ∀ c : Ctx,
      (paymentFieldFill pg dom
        "iframe[title*=\"expiration\"], iframe[id*=\"expirationDate\"]"
        "input[id*=\"expiration\"], input[name*=\"expirationDate\"], input"
        (p.card_exp_month ++ "/" ++ pyLastTwo p.card_exp_year) c).1 = Ctx.top := by
    intro c
    rw [paymentFieldFill_fst, if_neg hv2]
    have hsp : pySplitCommaSpace
        "iframe[title*=\"expiration\"], iframe[id*=\"expirationDate\"]" =
        ["iframe[title*=\"expiration\"]", "iframe[id*=\"expirationDate\"]"] := rfl
    rw [hsp]
    exact frameGroupFill_cons_top pg _ _ _ _ c
  have h3 : ∀ v : String,
      (paymentFieldFill pg dom
        "iframe[title*=\"CVV\"], iframe[title*=\"cvv\"], iframe[id*=\"cvv\"]"
        "input[id*=\"cvv\"], input[name*=\"cvv\"], input" v Ctx.top).1 = Ctx.top := by
    intro v
    rw [paymentFieldFill_fst]
    by_cases hv : v = ""
    · rw [if_pos hv]
    · rw [if_neg hv]
      have hsp : pySplitCommaSpace
          "iframe[title*=\"CVV\"], iframe[title*=\"cvv\"], iframe[id*=\"cvv\"]" =
          ["iframe[title*=\"CVV\"]", "iframe[title*=\"cvv\"]", "iframe[id*=\"cvv\"]"] := rfl
      rw [hsp]
      exact frameGroupFill_cons_top pg _ _ _ _ Ctx.top
  unfold fillPaymentCards iframeCardMap
  simp only [List.foldl_cons, List.foldl_nil]
  rw [h2, h3]

end NikeBot
